import Mathlib

/-
Verification development for the slack-status-updater repository.

The embedding below follows the main program (src/index.ts, multi-workspace
revision) together with config.js. JS Date values are represented by their
observable projections (formatted calendar date, weekday, minute of day,
epoch seconds); JS strings are compared through their character lists, which
coincides with the code-unit comparison the runtime performs on ASCII dates;
HH:MM strings are parsed exactly as String.prototype.split plus Number do.
-/

namespace SlackStatus

/-- Days of the week, as produced by the JS Date object. -/
inductive Weekday where
  | sunday
  | monday
  | tuesday
  | wednesday
  | thursday
  | friday
  | saturday
deriving DecidableEq, Repr

/-- The full day name produced by format(date, "EEEE") in the source. -/
def Weekday.name : Weekday → String
  | .sunday => "Sunday"
  | .monday => "Monday"
  | .tuesday => "Tuesday"
  | .wednesday => "Wednesday"
  | .thursday => "Thursday"
  | .friday => "Friday"
  | .saturday => "Saturday"

/-- The dayMap object of getWorkDaysCronExpression and
getNonWorkDaysCronExpression: day name to cron day number; an unknown name
yields undefined, modelled as none. -/
def dayMap : String → Option Nat
  | "Sunday" => some 0
  | "Monday" => some 1
  | "Tuesday" => some 2
  | "Wednesday" => some 3
  | "Thursday" => some 4
  | "Friday" => some 5
  | "Saturday" => some 6
  | _ => none

/-- Lexicographic comparison of character lists by code point, mirroring the
JS relational operators on strings (code-unit order; identical on ASCII). -/
def charsLt : List Char → List Char → Bool
  | _, [] => false
  | [], _ :: _ => true
  | a :: as, b :: bs =>
    if a.toNat < b.toNat then true
    else if b.toNat < a.toNat then false
    else charsLt as bs

/-- JS string less-than, via the character lists of the two strings. -/
def jsLt (a b : String) : Bool :=
  charsLt a.data b.data

/-- Split a character list on a separator character, mirroring
String.prototype.split with a single-character separator. -/
def splitOnChar (sep : Char) : List Char → List (List Char)
  | [] => [[]]
  | c :: cs =>
    let rest := splitOnChar sep cs
    if c = sep then [] :: rest
    else
      match rest with
      | [] => [[c]]
      | r :: rs => (c :: r) :: rs

/-- Decimal value of a digit list, mirroring Number on a digit string. -/
def digitsVal (cs : List Char) : Nat :=
  cs.foldl (fun acc c => acc * 10 + (c.toNat - 48)) 0

/-- Parse an HH:MM string into a minute-of-day count, mirroring the repeated
source pattern: split on the colon, convert with Number, hour * 60 + minute. -/
def parseTime (s : String) : Nat :=
  let parts := splitOnChar ':' s.data
  digitsVal (parts.headD []) * 60 + digitsVal ((parts.drop 1).headD [])

/-- A start and end time pair, as in config.workHours and config.lunchBreak.
The source field named end is a reserved word in Lean and is rendered stop. -/
structure TimeRange where
  start : String
  stop : String
deriving DecidableEq, Repr

/-- One entry of config.shortBreaks. -/
structure ShortBreak where
  time : String
  duration : Nat
deriving DecidableEq, Repr

/-- One entry of config.holidays in the shipped configuration revision the
program reads: an object with a day string and an optional message. -/
structure HolidayEntry where
  day : String
  message : Option String
deriving DecidableEq, Repr

/-- One entry of config.vacationPeriods. The source field named end is a
reserved word in Lean and is rendered stop. -/
structure VacationPeriod where
  start : String
  stop : String
deriving DecidableEq, Repr

/-- The hour field of an out-of-office rule: a start and end time pair. -/
structure HourRange where
  start : String
  stop : String
deriving DecidableEq, Repr

/-- One entry of config.outOfOffice. Every field is optional, matching the
loosely shaped JS objects; the plural days field appears in one shipped
configuration revision but is never read by the matching code. -/
structure OOORule where
  day : Option String
  time : Option String
  duration : Option Nat
  hour : Option HourRange
  days : Option (List String)
  message : Option String
deriving DecidableEq, Repr

/-- The config.statusMessages mapping; each key may be absent. -/
structure StatusMessages where
  active : Option String
  away : Option String
  lunch : Option String
  shortBreak : Option String
  holiday : Option String
  vacation : Option String
  weekend : Option String
deriving DecidableEq, Repr

/-- One entry of config.workspaces. -/
structure Workspace where
  name : String
  tokenEnvKey : String
deriving DecidableEq, Repr

/-- The configuration object the program loads once at startup. -/
structure Config where
  workspaces : List Workspace
  workDays : List String
  outOfOffice : List OOORule
  workHours : TimeRange
  lunchBreak : TimeRange
  shortBreaks : List ShortBreak
  holidays : List HolidayEntry
  vacationPeriods : List VacationPeriod
  statusMessages : StatusMessages
deriving DecidableEq, Repr

/-- Observable projections of a JS Date as the source uses them: the
formatted calendar date (format yyyy-MM-dd), the weekday (format EEEE and
the date-fns weekend check), the minute of day (getHours and getMinutes),
and the epoch second count (Date.now() / 1000) at dispatch time. -/
structure Instant where
  dateStr : String
  weekday : Weekday
  minuteOfDay : Nat
  epochSeconds : Nat
deriving DecidableEq, Repr

/-- getHoliday: find the holiday entry whose day equals the formatted date;
the source returns the entry or null. -/
def getHoliday (c : Config) (i : Instant) : Option HolidayEntry :=
  c.holidays.find? (fun h => decide (h.day = i.dateStr))

/-- isHoliday: whether getHoliday found an entry. -/
def isHoliday (c : Config) (i : Instant) : Bool :=
  (getHoliday c i).isSome

/-- isVacation: the formatted date is within some vacation period, by the
JS string comparisons currentDate greater-equal start and less-equal end. -/
def isVacation (c : Config) (i : Instant) : Bool :=
  c.vacationPeriods.any (fun period =>
    !(jsLt i.dateStr period.start) && !(jsLt period.stop i.dateStr))

/-- isDuringWorkHours: minute of day in the half-open configured window. -/
def isDuringWorkHours (c : Config) (i : Instant) : Bool :=
  let startTime := parseTime c.workHours.start
  let endTime := parseTime c.workHours.stop
  decide (startTime ≤ i.minuteOfDay) && decide (i.minuteOfDay < endTime)

/-- isDuringLunch: minute of day in the half-open configured lunch window. -/
def isDuringLunch (c : Config) (i : Instant) : Bool :=
  let startTime := parseTime c.lunchBreak.start
  let endTime := parseTime c.lunchBreak.stop
  decide (startTime ≤ i.minuteOfDay) && decide (i.minuteOfDay < endTime)

/-- One iteration of the isOutOfOffice loop body: a rule matches when its
singular day field equals the evaluated day name, or its time plus duration
window contains the evaluated minute of day, or its hour range contains it.
The JS truthiness guards are kept: an empty string field and a zero duration
are falsy and disable their check. The plural days field is never read. -/
def oooRuleMatches (rule : OOORule) (day : String) (currentTime : Nat) : Bool :=
  (match rule.day with
   | some d => !decide (d = "") && decide (d = day)
   | none => false) ||
  (match rule.time, rule.duration with
   | some t, some dur =>
     !decide (t = "") && !decide (dur = 0) &&
       (let startTime := parseTime t
        decide (startTime ≤ currentTime) && decide (currentTime < startTime + dur))
   | _, _ => false) ||
  (match rule.hour with
   | some hr =>
     !decide (hr.start = "") && !decide (hr.stop = "") &&
       (let startTime := parseTime hr.start
        let endTime := parseTime hr.stop
        decide (startTime ≤ currentTime) && decide (currentTime < endTime))
   | none => false)

/-- isOutOfOffice: some configured rule matches the evaluated day name and
minute of day. The source signature takes an options object whose absent
fields default to the current date; callers here always pass the weekday
name and minute of day of the evaluated instant. -/
def isOutOfOffice (c : Config) (day : String) (currentTime : Nat) : Bool :=
  c.outOfOffice.any (fun rule => oooRuleMatches rule day currentTime)

/-- The date-fns isWeekend predicate the source imports: fixed Saturday or
Sunday, independent of the configured work days. -/
def isWeekend (w : Weekday) : Bool :=
  decide (w = .saturday) || decide (w = .sunday)

/-- Classification of the branch initialStatusCheck resolved to. -/
inductive StatusKind where
  | outOfOffice
  | holiday
  | vacation
  | weekend
  | lunch
  | active
  | away
deriving DecidableEq, Repr

/-- The emoji category handed to getDailyEmoji at each call site. The random
draw inside getDailyEmoji is outside the decision logic and not modelled. -/
inductive EmojiCategory where
  | active
  | away
  | lunch
  | shortBreak
deriving DecidableEq, Repr

/-- The arguments one resolver branch passes to updateSlackStatus, plus the
branch tag: status text, emoji category, expiration minutes, away flag. -/
structure StatusDecision where
  kind : StatusKind
  text : String
  emojiCategory : EmojiCategory
  expirationMinutes : Nat
  setAway : Bool
deriving DecidableEq, Repr

/-- Lookup of config.statusMessages by the string key the call sites use. -/
def lookupStatusMessage (m : StatusMessages) : String → Option String
  | "active" => m.active
  | "away" => m.away
  | "lunch" => m.lunch
  | "shortBreak" => m.shortBreak
  | "holiday" => m.holiday
  | "vacation" => m.vacation
  | "weekend" => m.weekend
  | _ => none

/-- getStatusMessage: the configured message for the status type when it is
present and truthy, else the given default. -/
def getStatusMessage (c : Config) (statusType : String) (defaultMessage : String) : String :=
  match lookupStatusMessage c.statusMessages statusType with
  | some msg => if msg = "" then defaultMessage else msg
  | none => defaultMessage

/-- initialStatusCheck: the status resolver. The cascade returns at the
first matching branch: out of office, then holiday, then vacation, then the
date-fns weekend check, then within work hours lunch or active, else away. -/
def initialStatusCheck (c : Config) (i : Instant) : StatusDecision :=
  let currentDay := i.weekday.name
  if isOutOfOffice c currentDay i.minuteOfDay then
    let oooConfig := c.outOfOffice.find? (fun ooo =>
      match ooo.day with
      | some d => !decide (d = "") && decide (d = currentDay)
      | none => false)
    let message :=
      match oooConfig with
      | some ooo =>
        match ooo.message with
        | some msg => if msg = "" then getStatusMessage c "away" "Away" else msg
        | none => getStatusMessage c "away" "Away"
      | none => getStatusMessage c "away" "Away"
    ⟨.outOfOffice, message, .away, 0, true⟩
  else
    match getHoliday c i with
    | some holidayEntry =>
      let holidayDefault :=
        match holidayEntry.message with
        | some msg => if msg = "" then "On Holiday" else msg
        | none => "On Holiday"
      ⟨.holiday, getStatusMessage c "holiday" holidayDefault, .away, 0, true⟩
    | none =>
      if isVacation c i then
        ⟨.vacation, getStatusMessage c "vacation" "On Vacation", .away, 0, true⟩
      else if isWeekend i.weekday then
        ⟨.weekend, getStatusMessage c "weekend" "Weekend Mode", .away, 0, true⟩
      else if isDuringWorkHours c i then
        if isDuringLunch c i then
          ⟨.lunch, getStatusMessage c "lunch" "Lunch Break", .lunch, 60, false⟩
        else
          ⟨.active, getStatusMessage c "active" "Active", .active, 0, false⟩
      else
        ⟨.away, getStatusMessage c "away" "Away", .away, 0, true⟩

/-- The status expiration field updateSlackStatus sends: for a positive
expiration minute count, the dispatch-time epoch seconds plus sixty times
that count; otherwise zero, meaning no expiration. -/
def statusExpiration (nowEpochSeconds : Nat) (expirationMinutes : Nat) : Nat :=
  if 0 < expirationMinutes then nowEpochSeconds + expirationMinutes * 60 else 0

/-- Whether a remote call resolves or rejects; an oracle supplied per
workspace to model the behavior of the external Slack client. -/
inductive RemoteOutcome where
  | ok
  | err
deriving DecidableEq, Repr

/-- The outcomes the two remote calls of one workspace would produce. -/
structure WorkspaceEnv where
  profileOutcome : RemoteOutcome
  presenceOutcome : RemoteOutcome
deriving DecidableEq, Repr

/-- Observable events of one updateSlackStatus dispatch, in order: a
profile.set call reaching the client for a workspace, a setPresence call, a
success log line, a caught per-workspace error log. -/
inductive DispatchEvent where
  | profileCall (workspaceName : String)
  | presenceCall (workspaceName : String)
  | logged (workspaceName : String)
  | errorRecorded (workspaceName : String)
deriving DecidableEq, Repr

/-- The try block of the per-workspace loop in updateSlackStatus: outside
debug mode it awaits profile.set, then setPresence, then logs; a rejection
at either call throws out of the block, skipping the rest of it. In debug
mode both remote calls are skipped and only the log runs. Returns the
events the block produced and whether it threw. -/
def attemptWorkspace (debugMode : Bool) (name : String) (env : WorkspaceEnv) :
    List DispatchEvent × Bool :=
  if debugMode then
    ([.logged name], false)
  else
    match env.profileOutcome with
    | .err => ([.profileCall name], true)
    | .ok =>
      match env.presenceOutcome with
      | .err => ([.profileCall name, .presenceCall name], true)
      | .ok => ([.profileCall name, .presenceCall name, .logged name], false)

/-- One full iteration of the per-workspace loop: the try block, and when
it threw, the catch that records exactly one error for that workspace. -/
def workspaceBlock (debugMode : Bool) (name : String) (env : WorkspaceEnv) :
    List DispatchEvent :=
  let attempt := attemptWorkspace debugMode name env
  attempt.1 ++ (if attempt.2 then [.errorRecorded name] else [])

/-- Trace semantics of updateSlackStatus: the loop visits every workspace in
order; each iteration contributes its block of events and the loop never
aborts, because every throw is caught inside the iteration. -/
def updateSlackStatus (debugMode : Bool)
    (workspaces : List (String × WorkspaceEnv)) : List DispatchEvent :=
  workspaces.flatMap (fun ws => workspaceBlock debugMode ws.1 ws.2)

/-- Whether the block of a workspace with these remote outcomes throws,
reaching the catch: the profile call or, after it succeeds, the presence
call rejects. -/
def workspaceFails (env : WorkspaceEnv) : Bool :=
  decide (env.profileOutcome = .err) ||
    (decide (env.profileOutcome = .ok) && decide (env.presenceOutcome = .err))

/-- Whether an event is one of the two remote calls. -/
def isRemoteCall : DispatchEvent → Bool
  | .profileCall _ => true
  | .presenceCall _ => true
  | _ => false

/-- The workspace name an event carries. -/
def eventName : DispatchEvent → String
  | .profileCall n => n
  | .presenceCall n => n
  | .logged n => n
  | .errorRecorded n => n

/-- Insert into a sorted list, ascending. -/
def insertSorted (x : Nat) : List Nat → List Nat
  | [] => [x]
  | y :: ys => if x ≤ y then x :: y :: ys else y :: insertSorted x ys

/-- Ascending sort of a number list, the observable result of the JS sort
calls in the cron-expression helpers. -/
def sortNats (l : List Nat) : List Nat :=
  l.foldr insertSorted []

/-- getWorkDaysCronExpression, structurally: map the configured work-day
names through dayMap and sort ascending. The final comma join is string
presentation only and is left out. -/
def getWorkDaysCronDays (c : Config) : List Nat :=
  sortNats (c.workDays.filterMap dayMap)

/-- The allDays array of getNonWorkDaysCronExpression. -/
def allDays : List Nat :=
  [0, 1, 2, 3, 4, 5, 6]

/-- getNonWorkDaysCronExpression, structurally: the cron day numbers not
produced by the configured work days, sorted ascending. -/
def getNonWorkDaysCronDays (c : Config) : List Nat :=
  sortNats (allDays.filter (fun d => !(c.workDays.filterMap dayMap).contains d))

/-- Which schedule registration a derived trigger came from. -/
inductive ReasonTag where
  | workStart
  | workEnd
  | lunchStart
  | lunchEnd
  | breakStart
  | breakEnd
  | nonWorkMidnight
  | dailyMidnight
deriving DecidableEq, Repr

/-- A structured rendering of one cron registration: fire minute, fire
hour, cron day numbers, and the registration it came from. -/
structure Trigger where
  minute : Nat
  hour : Nat
  days : List Nat
  tag : ReasonTag
deriving DecidableEq, Repr

/-- The schedule registrations the program performs at startup, in source
order. The work and lunch registrations hard-code their fire times in the
cron strings: 0 9, 0 17, 0 12 and 0 13. Each short break registers its
start, split from its HH:MM time, and a return computed by date arithmetic,
which reduces to start plus duration modulo one day. The two midnight
registrations close the list. -/
def deriveTriggers (c : Config) : List Trigger :=
  let workDaysCron := getWorkDaysCronDays c
  [ ⟨0, 9, workDaysCron, .workStart⟩
  , ⟨0, 17, workDaysCron, .workEnd⟩
  , ⟨0, 12, workDaysCron, .lunchStart⟩
  , ⟨0, 13, workDaysCron, .lunchEnd⟩ ] ++
  c.shortBreaks.flatMap (fun breakInfo =>
    let startMinutes := parseTime breakInfo.time
    let returnMinutes := (startMinutes + breakInfo.duration) % 1440
    [ ⟨startMinutes % 60, startMinutes / 60, workDaysCron, .breakStart⟩
    , ⟨returnMinutes % 60, returnMinutes / 60, workDaysCron, .breakEnd⟩ ]) ++
  [ ⟨0, 0, getNonWorkDaysCronDays c, .nonWorkMidnight⟩
  , ⟨0, 0, allDays, .dailyMidnight⟩ ]

/-- The trigger set as the specification words it: work triggers at the
configured workHours boundaries and lunch triggers at the configured
lunchBreak boundaries. Stated only to compare against deriveTriggers, which
the source builds from hard-coded times. -/
def specTriggers (c : Config) : List Trigger :=
  let workDaysCron := getWorkDaysCronDays c
  let ws := parseTime c.workHours.start
  let we := parseTime c.workHours.stop
  let ls := parseTime c.lunchBreak.start
  let le := parseTime c.lunchBreak.stop
  [ ⟨ws % 60, ws / 60, workDaysCron, .workStart⟩
  , ⟨we % 60, we / 60, workDaysCron, .workEnd⟩
  , ⟨ls % 60, ls / 60, workDaysCron, .lunchStart⟩
  , ⟨le % 60, le / 60, workDaysCron, .lunchEnd⟩ ] ++
  c.shortBreaks.flatMap (fun breakInfo =>
    let startMinutes := parseTime breakInfo.time
    let returnMinutes := startMinutes + breakInfo.duration
    [ ⟨startMinutes % 60, startMinutes / 60, workDaysCron, .breakStart⟩
    , ⟨returnMinutes % 60, returnMinutes / 60, workDaysCron, .breakEnd⟩ ]) ++
  [ ⟨0, 0, getNonWorkDaysCronDays c, .nonWorkMidnight⟩
  , ⟨0, 0, allDays, .dailyMidnight⟩ ]

/-- The arguments one trigger callback passes to updateSlackStatus when it
decides to push: status text, emoji category, expiration minutes, away
flag. -/
structure Push where
  text : String
  emojiCategory : EmojiCategory
  expirationMinutes : Nat
  setAway : Bool
deriving DecidableEq, Repr

/-- The callback of the work-start registration, evaluated at the firing
instant: for a plain work morning it pushes Active; on a holiday, vacation
or out-of-office match it pushes Away instead of staying silent. -/
def fireWorkStart (c : Config) (i : Instant) : List Push :=
  if !isHoliday c i && !isVacation c i &&
      !isOutOfOffice c i.weekday.name i.minuteOfDay then
    [⟨getStatusMessage c "active" "Active", .active, 0, false⟩]
  else
    [⟨getStatusMessage c "away" "Away", .away, 0, true⟩]

/-- The callback of the work-end registration: pushes Away unless the day is
a holiday, a vacation day or out of office, in which case it is silent. -/
def fireWorkEnd (c : Config) (i : Instant) : List Push :=
  if !isHoliday c i && !isVacation c i &&
      !isOutOfOffice c i.weekday.name i.minuteOfDay then
    [⟨getStatusMessage c "away" "Away", .away, 0, true⟩]
  else
    []

/-- The callback of the lunch-start registration: pushes the lunch status
with a sixty-minute expiration unless suppressed by holiday, vacation, the
weekend check or an out-of-office match. -/
def fireLunchStart (c : Config) (i : Instant) : List Push :=
  if !isHoliday c i && !isVacation c i && !isWeekend i.weekday &&
      !isOutOfOffice c i.weekday.name i.minuteOfDay then
    [⟨getStatusMessage c "lunch" "Lunch Break", .lunch, 60, false⟩]
  else
    []

/-- The callback of the lunch-end registration: pushes Active unless
suppressed. -/
def fireLunchEnd (c : Config) (i : Instant) : List Push :=
  if !isHoliday c i && !isVacation c i && !isWeekend i.weekday &&
      !isOutOfOffice c i.weekday.name i.minuteOfDay then
    [⟨getStatusMessage c "active" "Active", .active, 0, false⟩]
  else
    []

/-- The callback of a short-break start registration: pushes the short-break
status expiring after the break duration unless suppressed. -/
def fireBreakStart (c : Config) (breakInfo : ShortBreak) (i : Instant) : List Push :=
  if !isHoliday c i && !isVacation c i && !isWeekend i.weekday &&
      !isOutOfOffice c i.weekday.name i.minuteOfDay then
    [⟨getStatusMessage c "shortBreak" "Short Break", .shortBreak, breakInfo.duration, false⟩]
  else
    []

/-- The callback of a short-break return registration: pushes Active unless
suppressed. -/
def fireBreakEnd (c : Config) (i : Instant) : List Push :=
  if !isHoliday c i && !isVacation c i && !isWeekend i.weekday &&
      !isOutOfOffice c i.weekday.name i.minuteOfDay then
    [⟨getStatusMessage c "active" "Active", .active, 0, false⟩]
  else
    []

/-- The shipped configuration as the program reads it: the config.js
revision with holiday objects and statusMessages; its outOfOffice array is
empty because every example entry is commented out. The apostrophe of the
first holiday message is omitted from the literal. -/
def defaultConfig : Config :=
  { workspaces := [⟨"Default Workspace", "SLACK_TOKEN"⟩]
    workDays := ["Monday", "Tuesday", "Wednesday", "Thursday", "Friday"]
    outOfOffice := []
    workHours := ⟨"08:00", "16:00"⟩
    lunchBreak := ⟨"12:00", "13:00"⟩
    shortBreaks := [⟨"10:30", 15⟩, ⟨"15:00", 15⟩]
    holidays :=
      [ ⟨"2025-01-01", some "New Years Day"⟩
      , ⟨"2025-07-04", some "Independence Day"⟩
      , ⟨"2025-12-25", some "Christmas Day"⟩ ]
    vacationPeriods := [⟨"2025-12-24", "2025-12-31"⟩]
    statusMessages :=
      ⟨some "Active", some "Away", some "Lunch Break", some "Short Break",
       some "On Holiday", some "On Vacation", some "Weekend Mode"⟩ }

/-- The outOfOffice array of the other shipped config.js revision: a single
rule written with a plural days field and nothing else. -/
def configV2outOfOffice : List OOORule :=
  [⟨none, none, none, none, some ["Saturday", "Sunday"], none⟩]

/-- The default configuration with the plural-days out-of-office rule of the
other shipped revision, used to evaluate the matcher against that rule. -/
def configWithDaysRule : Config :=
  { defaultConfig with outOfOffice := configV2outOfOffice }

/-- A custom work week including Saturday, used to compare the fixed
weekend check with the configured work-day set. -/
def customWorkDays : List String :=
  ["Tuesday", "Wednesday", "Thursday", "Friday", "Saturday"]

/-! Helper lemmas shared by the claim theorems. -/

lemma charsLt_irrefl (cs : List Char) : charsLt cs cs = false := by
  induction cs with
  | nil => rfl
  | cons c cs ih => simp [charsLt, ih]

lemma jsLt_irrefl (s : String) : jsLt s s = false := by
  simp [jsLt, charsLt_irrefl]

lemma mem_insertSorted (x y : Nat) (l : List Nat) :
    x ∈ insertSorted y l ↔ x = y ∨ x ∈ l := by
  induction l with
  | nil => simp [insertSorted]
  | cons z zs ih =>
    by_cases h : y ≤ z
    · simp [insertSorted, h]
    · simp [insertSorted, h, ih]
      tauto

lemma mem_sortNats (x : Nat) (l : List Nat) : x ∈ sortNats l ↔ x ∈ l := by
  induction l with
  | nil => simp [sortNats]
  | cons y ys ih =>
    simp only [sortNats, List.foldr_cons] at *
    rw [mem_insertSorted, ih]
    simp

lemma initialStatusCheck_lunch_or_not (c : Config) (i : Instant) :
    ((initialStatusCheck c i).kind = .lunch ∧
       (initialStatusCheck c i).expirationMinutes = 60 ∧
       (initialStatusCheck c i).setAway = false) ∨
    ((initialStatusCheck c i).kind ≠ .lunch ∧
       (initialStatusCheck c i).expirationMinutes = 0) := by
  cases h1 : isOutOfOffice c i.weekday.name i.minuteOfDay with
  | true => right; simp [initialStatusCheck, h1]
  | false =>
    cases hgh : getHoliday c i with
    | some entry => right; simp [initialStatusCheck, h1, hgh]
    | none =>
      cases h3 : isVacation c i with
      | true => right; simp [initialStatusCheck, h1, hgh, h3]
      | false =>
        cases h4 : isWeekend i.weekday with
        | true => right; simp [initialStatusCheck, h1, hgh, h3, h4]
        | false =>
          cases h5 : isDuringWorkHours c i with
          | false => right; simp [initialStatusCheck, h1, hgh, h3, h4, h5]
          | true =>
            cases h6 : isDuringLunch c i with
            | true => left; simp [initialStatusCheck, h1, hgh, h3, h4, h5, h6]
            | false => right; simp [initialStatusCheck, h1, hgh, h3, h4, h5, h6]

/-- C3: exactly the Lunch branch carries an expiration: when the resolved
kind is Lunch the decision expires at the evaluation instant plus 3600
seconds and keeps presence active, and every other branch passes a zero
expiration, which the update layer sends as no expiration at all. -/
theorem lunch_expiration_c3 :
    ∀ (c : Config) (i : Instant),
      ((initialStatusCheck c i).kind = .lunch →
        (initialStatusCheck c i).expirationMinutes = 60 ∧
        (initialStatusCheck c i).setAway = false ∧
        statusExpiration i.epochSeconds (initialStatusCheck c i).expirationMinutes =
          i.epochSeconds + 3600) ∧
      ((initialStatusCheck c i).kind ≠ .lunch →
        (initialStatusCheck c i).expirationMinutes = 0 ∧
        statusExpiration i.epochSeconds (initialStatusCheck c i).expirationMinutes = 0) := by
  intro c i
  rcases initialStatusCheck_lunch_or_not c i with ⟨hk, he, ha⟩ | ⟨hk, he⟩
  · exact ⟨fun _ => ⟨he, ha, by simp [statusExpiration, he]⟩, fun hn => absurd hk hn⟩
  · exact ⟨fun hl => absurd hl hk, fun _ => ⟨he, by simp [statusExpiration, he]⟩⟩

/-- Witness for C3 at the shipped configuration, a Wednesday at 12:30. -/
theorem lunch_expiration_c3_witness :
    (initialStatusCheck defaultConfig
      ⟨"2025-03-05", Weekday.wednesday, 750, 1741150000⟩).expirationMinutes = 60 ∧
    (initialStatusCheck defaultConfig
      ⟨"2025-03-05", Weekday.wednesday, 750, 1741150000⟩).setAway = false ∧
    statusExpiration 1741150000
      (initialStatusCheck defaultConfig
        ⟨"2025-03-05", Weekday.wednesday, 750, 1741150000⟩).expirationMinutes =
      1741150000 + 3600 :=
  (lunch_expiration_c3 defaultConfig
    ⟨"2025-03-05", Weekday.wednesday, 750, 1741150000⟩).1 (by decide)

/-- C4: isVacation is inclusive at both endpoints of every well-ordered
configured period, holds on every date between them under the string order
the code compares with, and is false on a date outside every period. -/
theorem isVacation_inclusive_c4 :
    (∀ (c : Config) (p : VacationPeriod) (i : Instant),
      p ∈ c.vacationPeriods →
      jsLt p.stop p.start = false →
      ((i.dateStr = p.start → isVacation c i = true) ∧
       (i.dateStr = p.stop → isVacation c i = true) ∧
       (jsLt i.dateStr p.start = false → jsLt p.stop i.dateStr = false →
         isVacation c i = true))) ∧
    (∀ (c : Config) (i : Instant),
      (∀ q ∈ c.vacationPeriods,
        jsLt i.dateStr q.start = true ∨ jsLt q.stop i.dateStr = true) →
      isVacation c i = false) := by
  constructor
  · intro c p i hp hwf
    refine ⟨?_, ?_, ?_⟩
    · intro hd
      rw [isVacation, List.any_eq_true]
      exact ⟨p, hp, by simp [hd, jsLt_irrefl, hwf]⟩
    · intro hd
      rw [isVacation, List.any_eq_true]
      exact ⟨p, hp, by simp [hd, jsLt_irrefl, hwf]⟩
    · intro h1 h2
      rw [isVacation, List.any_eq_true]
      exact ⟨p, hp, by simp [h1, h2]⟩
  · intro c i h
    rw [isVacation, List.any_eq_false]
    intro q hq
    rcases h q hq with h1 | h1 <;> simp [h1]

/-- Witness for C4 at the shipped vacation period 2025-12-24 to 2025-12-31:
both endpoints, an interior date, and a date outside every period. -/
theorem isVacation_inclusive_c4_witness :
    isVacation defaultConfig ⟨"2025-12-24", Weekday.wednesday, 600, 0⟩ = true ∧
    isVacation defaultConfig ⟨"2025-12-31", Weekday.wednesday, 600, 0⟩ = true ∧
    isVacation defaultConfig ⟨"2025-12-27", Weekday.saturday, 600, 0⟩ = true ∧
    isVacation defaultConfig ⟨"2026-01-01", Weekday.thursday, 600, 0⟩ = false :=
  ⟨(isVacation_inclusive_c4.1 defaultConfig ⟨"2025-12-24", "2025-12-31"⟩
      ⟨"2025-12-24", Weekday.wednesday, 600, 0⟩ (by decide) (by decide)).1 rfl,
   (isVacation_inclusive_c4.1 defaultConfig ⟨"2025-12-24", "2025-12-31"⟩
      ⟨"2025-12-31", Weekday.wednesday, 600, 0⟩ (by decide) (by decide)).2.1 rfl,
   (isVacation_inclusive_c4.1 defaultConfig ⟨"2025-12-24", "2025-12-31"⟩
      ⟨"2025-12-27", Weekday.saturday, 600, 0⟩ (by decide) (by decide)).2.2
     (by decide) (by decide),
   isVacation_inclusive_c4.2 defaultConfig ⟨"2026-01-01", Weekday.thursday, 600, 0⟩
     (by decide)⟩

/-- C5 counterexample: under a work week that includes Saturday, the weekend
predicate the code uses still reports Saturday as weekend, so it is not the
complement of the configured work-day set. -/
theorem isWeekend_counterexample_c5 :
    ¬ (isWeekend Weekday.saturday =
        !(customWorkDays.contains Weekday.saturday.name)) := by
  decide

/-- C5 amended: the weekend predicate is the fixed Saturday or Sunday check
of date-fns, taking no configuration at all; it coincides with the
complement of the configured work days exactly for the shipped default
Monday to Friday work week. -/
theorem isWeekend_fixed_c5 :
    (∀ w : Weekday, isWeekend w = true ↔ (w = .saturday ∨ w = .sunday)) ∧
    (∀ w : Weekday, isWeekend w = !(defaultConfig.workDays.contains w.name)) := by
  constructor
  · intro w; cases w <;> decide
  · intro w; cases w <;> decide

/-- C7 counterexample: on the configured holiday 2025-01-01 the work-start
trigger does not suppress itself; it pushes an Away update. -/
theorem fire_on_holiday_counterexample_c7 :
    isHoliday defaultConfig ⟨"2025-01-01", Weekday.wednesday, 540, 0⟩ = true ∧
    fireWorkStart defaultConfig ⟨"2025-01-01", Weekday.wednesday, 540, 0⟩ ≠ [] := by
  decide

/-- C7 amended: at fire time every work-day trigger re-validates the date;
on a holiday or vacation date the work-end, lunch and short-break triggers
push nothing, while the work-start trigger instead pushes a single Away
update with away presence. -/
theorem triggers_revalidate_c7 :
    ∀ (c : Config) (i : Instant) (b : ShortBreak),
      isHoliday c i = true ∨ isVacation c i = true →
      fireWorkEnd c i = [] ∧
      fireLunchStart c i = [] ∧
      fireLunchEnd c i = [] ∧
      fireBreakStart c b i = [] ∧
      fireBreakEnd c i = [] ∧
      fireWorkStart c i = [⟨getStatusMessage c "away" "Away", .away, 0, true⟩] := by
  intro c i b h
  rcases h with h | h <;>
    simp [fireWorkEnd, fireLunchStart, fireLunchEnd, fireBreakStart,
          fireBreakEnd, fireWorkStart, h]

/-- Witness for C7 on the configured holiday 2025-01-01. -/
theorem triggers_revalidate_c7_witness :
    fireWorkEnd defaultConfig ⟨"2025-01-01", Weekday.wednesday, 1020, 0⟩ = [] ∧
    fireLunchStart defaultConfig ⟨"2025-01-01", Weekday.wednesday, 1020, 0⟩ = [] ∧
    fireLunchEnd defaultConfig ⟨"2025-01-01", Weekday.wednesday, 1020, 0⟩ = [] ∧
    fireBreakStart defaultConfig ⟨"10:30", 15⟩
      ⟨"2025-01-01", Weekday.wednesday, 1020, 0⟩ = [] ∧
    fireBreakEnd defaultConfig ⟨"2025-01-01", Weekday.wednesday, 1020, 0⟩ = [] ∧
    fireWorkStart defaultConfig ⟨"2025-01-01", Weekday.wednesday, 1020, 0⟩ =
      [⟨getStatusMessage defaultConfig "away" "Away", .away, 0, true⟩] :=
  triggers_revalidate_c7 defaultConfig ⟨"2025-01-01", Weekday.wednesday, 1020, 0⟩
    ⟨"10:30", 15⟩ (Or.inl (by decide))

/-- C8: in debug mode a dispatch produces no remote call at all and reduces
to exactly one log event per configured workspace, in order. -/
theorem debug_dispatch_c8 :
    ∀ (workspaces : List (String × WorkspaceEnv)),
      (updateSlackStatus true workspaces).filter isRemoteCall = [] ∧
      updateSlackStatus true workspaces =
        workspaces.map (fun ws => DispatchEvent.logged ws.1) := by
  intro wss
  induction wss with
  | nil => exact ⟨rfl, rfl⟩
  | cons ws rest ih =>
    obtain ⟨ih1, ih2⟩ := ih
    constructor
    · show List.filter isRemoteCall
        (DispatchEvent.logged ws.1 :: updateSlackStatus true rest) = []
      simp [List.filter_cons, isRemoteCall, ih1]
    · show DispatchEvent.logged ws.1 :: updateSlackStatus true rest =
        List.map (fun ws => DispatchEvent.logged ws.1) (ws :: rest)
      rw [List.map_cons, ih2]

/-- C10: within one dispatch each workspace attempts the profile update
before the presence update; a profile rejection records the error and skips
that workspace's presence call, while the remaining workspaces are processed
unchanged, leaving remote profile and presence non-atomic per workspace. -/
theorem profile_then_presence_c10 :
    ∀ (name : String) (env : WorkspaceEnv) (rest : List (String × WorkspaceEnv)),
      (env.profileOutcome = .err →
        updateSlackStatus false ((name, env) :: rest) =
          DispatchEvent.profileCall name :: DispatchEvent.errorRecorded name ::
            updateSlackStatus false rest) ∧
      (env.profileOutcome = .ok → env.presenceOutcome = .err →
        updateSlackStatus false ((name, env) :: rest) =
          DispatchEvent.profileCall name :: DispatchEvent.presenceCall name ::
            DispatchEvent.errorRecorded name :: updateSlackStatus false rest) ∧
      (env.profileOutcome = .ok → env.presenceOutcome = .ok →
        updateSlackStatus false ((name, env) :: rest) =
          DispatchEvent.profileCall name :: DispatchEvent.presenceCall name ::
            DispatchEvent.logged name :: updateSlackStatus false rest) := by
  intro name env rest
  refine ⟨fun h1 => ?_, fun h1 h2 => ?_, fun h1 h2 => ?_⟩
  · simp [updateSlackStatus, workspaceBlock, attemptWorkspace, h1]
  · simp [updateSlackStatus, workspaceBlock, attemptWorkspace, h1, h2]
  · simp [updateSlackStatus, workspaceBlock, attemptWorkspace, h1, h2]

/-- Witness for C10: a failing first workspace yields its profile attempt
and error only, and the second workspace is still fully processed. -/
theorem profile_then_presence_c10_witness :
    updateSlackStatus false [("A", ⟨.err, .ok⟩), ("B", ⟨.ok, .ok⟩)] =
      DispatchEvent.profileCall "A" :: DispatchEvent.errorRecorded "A" ::
        updateSlackStatus false [("B", ⟨.ok, .ok⟩)] :=
  (profile_then_presence_c10 "A" ⟨.err, .ok⟩ [("B", ⟨.ok, .ok⟩)]).1 rfl

lemma isHoliday_true_getHoliday (c : Config) (i : Instant)
    (h : isHoliday c i = true) : ∃ e, getHoliday c i = some e := by
  unfold isHoliday at h
  exact Option.isSome_iff_exists.mp h

lemma isHoliday_false_getHoliday (c : Config) (i : Instant)
    (h : isHoliday c i = false) : getHoliday c i = none := by
  unfold isHoliday at h
  cases hg : getHoliday c i with
  | none => rfl
  | some e => rw [hg] at h; simp at h

/-- C1: the resolver evaluates exactly one branch per instant in the
precedence order out of office, holiday, vacation, weekend, then within
work hours lunch or active, else away; in particular, with the shipped
configuration, an instant that is a holiday date and within work hours
resolves to Holiday with away presence and never to Active. -/
theorem precedence_c1 :
    (∀ (c : Config) (i : Instant),
      (isOutOfOffice c i.weekday.name i.minuteOfDay = true →
        (initialStatusCheck c i).kind = .outOfOffice ∧
        (initialStatusCheck c i).setAway = true) ∧
      (isOutOfOffice c i.weekday.name i.minuteOfDay = false →
        isHoliday c i = true →
        (initialStatusCheck c i).kind = .holiday ∧
        (initialStatusCheck c i).setAway = true) ∧
      (isOutOfOffice c i.weekday.name i.minuteOfDay = false →
        isHoliday c i = false → isVacation c i = true →
        (initialStatusCheck c i).kind = .vacation ∧
        (initialStatusCheck c i).setAway = true) ∧
      (isOutOfOffice c i.weekday.name i.minuteOfDay = false →
        isHoliday c i = false → isVacation c i = false →
        isWeekend i.weekday = true →
        (initialStatusCheck c i).kind = .weekend ∧
        (initialStatusCheck c i).setAway = true) ∧
      (isOutOfOffice c i.weekday.name i.minuteOfDay = false →
        isHoliday c i = false → isVacation c i = false →
        isWeekend i.weekday = false →
        isDuringWorkHours c i = true → isDuringLunch c i = true →
        (initialStatusCheck c i).kind = .lunch ∧
        (initialStatusCheck c i).setAway = false) ∧
      (isOutOfOffice c i.weekday.name i.minuteOfDay = false →
        isHoliday c i = false → isVacation c i = false →
        isWeekend i.weekday = false →
        isDuringWorkHours c i = true → isDuringLunch c i = false →
        (initialStatusCheck c i).kind = .active ∧
        (initialStatusCheck c i).setAway = false) ∧
      (isOutOfOffice c i.weekday.name i.minuteOfDay = false →
        isHoliday c i = false → isVacation c i = false →
        isWeekend i.weekday = false →
        isDuringWorkHours c i = false →
        (initialStatusCheck c i).kind = .away ∧
        (initialStatusCheck c i).setAway = true)) ∧
    (∀ (i : Instant),
      isHoliday defaultConfig i = true →
      isDuringWorkHours defaultConfig i = true →
      (initialStatusCheck defaultConfig i).kind = .holiday ∧
      (initialStatusCheck defaultConfig i).setAway = true ∧
      (initialStatusCheck defaultConfig i).kind ≠ .active) := by
  constructor
  · intro c i
    refine ⟨?_, ?_, ?_, ?_, ?_, ?_, ?_⟩
    · intro h1
      simp [initialStatusCheck, h1]
    · intro h1 h2
      obtain ⟨e, hgh⟩ := isHoliday_true_getHoliday c i h2
      simp [initialStatusCheck, h1, hgh]
    · intro h1 h2 h3
      have hgh := isHoliday_false_getHoliday c i h2
      simp [initialStatusCheck, h1, hgh, h3]
    · intro h1 h2 h3 h4
      have hgh := isHoliday_false_getHoliday c i h2
      simp [initialStatusCheck, h1, hgh, h3, h4]
    · intro h1 h2 h3 h4 h5 h6
      have hgh := isHoliday_false_getHoliday c i h2
      simp [initialStatusCheck, h1, hgh, h3, h4, h5, h6]
    · intro h1 h2 h3 h4 h5 h6
      have hgh := isHoliday_false_getHoliday c i h2
      simp [initialStatusCheck, h1, hgh, h3, h4, h5, h6]
    · intro h1 h2 h3 h4 h5
      have hgh := isHoliday_false_getHoliday c i h2
      simp [initialStatusCheck, h1, hgh, h3, h4, h5]
  · intro i h1 h2
    obtain ⟨e, hgh⟩ := isHoliday_true_getHoliday defaultConfig i h1
    have hooo : isOutOfOffice defaultConfig i.weekday.name i.minuteOfDay = false := rfl
    simp [initialStatusCheck, hooo, hgh]

/-- Witness for C1 at the shipped configuration on the holiday 2025-01-01
at 10:00, inside work hours on a Wednesday. -/
theorem precedence_c1_witness :
    (initialStatusCheck defaultConfig
      ⟨"2025-01-01", Weekday.wednesday, 600, 0⟩).kind = .holiday ∧
    (initialStatusCheck defaultConfig
      ⟨"2025-01-01", Weekday.wednesday, 600, 0⟩).setAway = true ∧
    (initialStatusCheck defaultConfig
      ⟨"2025-01-01", Weekday.wednesday, 600, 0⟩).kind ≠ .active :=
  precedence_c1.2 ⟨"2025-01-01", Weekday.wednesday, 600, 0⟩ (by decide) (by decide)

lemma count_profileCall_block (n x : String) (env : WorkspaceEnv) :
    (workspaceBlock false n env).count (DispatchEvent.profileCall x) =
      if n = x then 1 else 0 := by
  obtain ⟨po, pe⟩ := env
  by_cases h : n = x <;>
    cases po <;> cases pe <;>
      simp [workspaceBlock, attemptWorkspace, List.count_cons, List.count_append,
            List.count_nil, h]

lemma count_errorRecorded_block (n x : String) (env : WorkspaceEnv) :
    (workspaceBlock false n env).count (DispatchEvent.errorRecorded x) =
      if n = x then (if workspaceFails env = true then 1 else 0) else 0 := by
  obtain ⟨po, pe⟩ := env
  by_cases h : n = x <;>
    cases po <;> cases pe <;>
      simp [workspaceBlock, attemptWorkspace, workspaceFails, List.count_cons,
            List.count_append, List.count_nil, h]

lemma count_profileCall_zero (x : String) :
    ∀ (wss : List (String × WorkspaceEnv)), x ∉ wss.map Prod.fst →
      (updateSlackStatus false wss).count (DispatchEvent.profileCall x) = 0 := by
  intro wss
  induction wss with
  | nil => intro _; rfl
  | cons ws rest ih =>
    intro hx
    simp only [List.map_cons, List.mem_cons, not_or] at hx
    obtain ⟨hx1, hx2⟩ := hx
    show (workspaceBlock false ws.1 ws.2 ++ updateSlackStatus false rest).count
        (DispatchEvent.profileCall x) = 0
    rw [List.count_append, count_profileCall_block,
        if_neg (fun h => hx1 h.symm), ih hx2]

lemma count_errorRecorded_zero (x : String) :
    ∀ (wss : List (String × WorkspaceEnv)), x ∉ wss.map Prod.fst →
      (updateSlackStatus false wss).count (DispatchEvent.errorRecorded x) = 0 := by
  intro wss
  induction wss with
  | nil => intro _; rfl
  | cons ws rest ih =>
    intro hx
    simp only [List.map_cons, List.mem_cons, not_or] at hx
    obtain ⟨hx1, hx2⟩ := hx
    show (workspaceBlock false ws.1 ws.2 ++ updateSlackStatus false rest).count
        (DispatchEvent.errorRecorded x) = 0
    rw [List.count_append, count_errorRecorded_block,
        if_neg (fun h => hx1 h.symm), ih hx2]

/-- C2: a dispatch over any workspace list with pairwise distinct names
attempts the profile update of every workspace exactly once regardless of
failures elsewhere, records exactly one error for a workspace exactly when
its block throws, and each loop iteration passes control to the remaining
workspaces rather than aborting. -/
theorem dispatch_per_account_c2 :
    (∀ (workspaces : List (String × WorkspaceEnv)),
      (workspaces.map Prod.fst).Nodup →
      ∀ ws ∈ workspaces,
        (updateSlackStatus false workspaces).count
            (DispatchEvent.profileCall ws.1) = 1 ∧
        (updateSlackStatus false workspaces).count
            (DispatchEvent.errorRecorded ws.1) =
          (if workspaceFails ws.2 = true then 1 else 0)) ∧
    (∀ (name : String) (env : WorkspaceEnv) (rest : List (String × WorkspaceEnv)),
      updateSlackStatus false ((name, env) :: rest) =
        workspaceBlock false name env ++ updateSlackStatus false rest) := by
  constructor
  · intro wss
    induction wss with
    | nil => intro _ ws hws; exact absurd hws (List.not_mem_nil ws)
    | cons hd rest ih =>
      intro hnd ws hws
      rw [List.map_cons, List.nodup_cons] at hnd
      obtain ⟨hn, hnd2⟩ := hnd
      rcases List.mem_cons.mp hws with rfl | hmem
      · constructor
        · show (workspaceBlock false ws.1 ws.2 ++ updateSlackStatus false rest).count
              (DispatchEvent.profileCall ws.1) = 1
          rw [List.count_append, count_profileCall_block, if_pos rfl,
              count_profileCall_zero ws.1 rest hn]
        · show (workspaceBlock false ws.1 ws.2 ++ updateSlackStatus false rest).count
              (DispatchEvent.errorRecorded ws.1) =
            (if workspaceFails ws.2 = true then 1 else 0)
          rw [List.count_append, count_errorRecorded_block, if_pos rfl,
              count_errorRecorded_zero ws.1 rest hn]
          simp
      · have hne : hd.1 ≠ ws.1 := by
          intro he
          exact hn (he ▸ List.mem_map_of_mem Prod.fst hmem)
        obtain ⟨c1, c2⟩ := ih hnd2 ws hmem
        constructor
        · show (workspaceBlock false hd.1 hd.2 ++ updateSlackStatus false rest).count
              (DispatchEvent.profileCall ws.1) = 1
          rw [List.count_append, count_profileCall_block, if_neg hne, c1]
        · show (workspaceBlock false hd.1 hd.2 ++ updateSlackStatus false rest).count
              (DispatchEvent.errorRecorded ws.1) =
            (if workspaceFails ws.2 = true then 1 else 0)
          rw [List.count_append, count_errorRecorded_block, if_neg hne, c2]
          simp
  · intro name env rest
    rfl

/-- Witness for C2 at two workspaces with the first one failing: one
profile attempt and one recorded error for the failing workspace, and the
loop hands the rest of the list on unchanged. -/
theorem dispatch_per_account_c2_witness :
    (updateSlackStatus false [("A", ⟨.err, .ok⟩), ("B", ⟨.ok, .ok⟩)]).count
        (DispatchEvent.profileCall "A") = 1 ∧
    (updateSlackStatus false [("A", ⟨.err, .ok⟩), ("B", ⟨.ok, .ok⟩)]).count
        (DispatchEvent.errorRecorded "A") =
      (if workspaceFails ⟨.err, .ok⟩ = true then 1 else 0) ∧
    updateSlackStatus false [("A", ⟨.err, .ok⟩), ("B", ⟨.ok, .ok⟩)] =
      workspaceBlock false "A" ⟨.err, .ok⟩ ++
        updateSlackStatus false [("B", ⟨.ok, .ok⟩)] :=
  ⟨(dispatch_per_account_c2.1 [("A", ⟨.err, .ok⟩), ("B", ⟨.ok, .ok⟩)] (by decide)
      ("A", ⟨.err, .ok⟩) (by decide)).1,
   (dispatch_per_account_c2.1 [("A", ⟨.err, .ok⟩), ("B", ⟨.ok, .ok⟩)] (by decide)
      ("A", ⟨.err, .ok⟩) (by decide)).2,
   dispatch_per_account_c2.2 "A" ⟨.err, .ok⟩ [("B", ⟨.ok, .ok⟩)]⟩

/-- C6 counterexample: for the shipped configuration the derived trigger
set differs from the specified one, and it contains no work-start trigger
at the configured work-hours start at all: the registration hard-codes
09:00 while the configuration starts work at 08:00. -/
theorem deriveTriggers_counterexample_c6 :
    deriveTriggers defaultConfig ≠ specTriggers defaultConfig ∧
    ¬ ∃ t ∈ deriveTriggers defaultConfig,
        t.tag = ReasonTag.workStart ∧
        t.hour * 60 + t.minute = parseTime defaultConfig.workHours.start := by
  decide

/-- C6 amended: the derived trigger set contains exactly a work-start
trigger at the hard-coded 09:00 and a work-end trigger at the hard-coded
17:00 on the configured work days, lunch triggers at the hard-coded 12:00
and 13:00 (coinciding with the configured lunch break), for each short
break a start trigger at its configured time and a return trigger at start
plus duration reduced modulo one day, one midnight trigger on the
complement of the work days over the week, and one unconditional daily
midnight trigger. -/
theorem deriveTriggers_amended_c6 :
    ∀ (c : Config),
      (∀ t : Trigger,
        t ∈ deriveTriggers c ↔
          (t = ⟨0, 9, getWorkDaysCronDays c, .workStart⟩ ∨
           t = ⟨0, 17, getWorkDaysCronDays c, .workEnd⟩ ∨
           t = ⟨0, 12, getWorkDaysCronDays c, .lunchStart⟩ ∨
           t = ⟨0, 13, getWorkDaysCronDays c, .lunchEnd⟩ ∨
           (∃ b ∈ c.shortBreaks,
             t = ⟨parseTime b.time % 60, parseTime b.time / 60,
                   getWorkDaysCronDays c, .breakStart⟩ ∨
             t = ⟨(parseTime b.time + b.duration) % 1440 % 60,
                   (parseTime b.time + b.duration) % 1440 / 60,
                   getWorkDaysCronDays c, .breakEnd⟩) ∨
           t = ⟨0, 0, getNonWorkDaysCronDays c, .nonWorkMidnight⟩ ∨
           t = ⟨0, 0, allDays, .dailyMidnight⟩)) ∧
      (∀ d : Nat, d ∈ getNonWorkDaysCronDays c ↔
        d ∈ allDays ∧ d ∉ c.workDays.filterMap dayMap) := by
  intro c
  constructor
  · intro t
    simp only [deriveTriggers, List.mem_append, List.mem_flatMap, List.mem_cons,
      List.mem_singleton, List.not_mem_nil, or_false]
    constructor
    · rintro (((h | h | h | h) | ⟨b, hb, (h | h)⟩) | (h | h))
      · exact Or.inl h
      · exact Or.inr (Or.inl h)
      · exact Or.inr (Or.inr (Or.inl h))
      · exact Or.inr (Or.inr (Or.inr (Or.inl h)))
      · exact Or.inr (Or.inr (Or.inr (Or.inr (Or.inl ⟨b, hb, Or.inl h⟩))))
      · exact Or.inr (Or.inr (Or.inr (Or.inr (Or.inl ⟨b, hb, Or.inr h⟩))))
      · exact Or.inr (Or.inr (Or.inr (Or.inr (Or.inr (Or.inl h)))))
      · exact Or.inr (Or.inr (Or.inr (Or.inr (Or.inr (Or.inr h)))))
    · rintro (h | h | h | h | ⟨b, hb, (h | h)⟩ | h | h)
      · exact Or.inl (Or.inl (Or.inl h))
      · exact Or.inl (Or.inl (Or.inr (Or.inl h)))
      · exact Or.inl (Or.inl (Or.inr (Or.inr (Or.inl h))))
      · exact Or.inl (Or.inl (Or.inr (Or.inr (Or.inr h))))
      · exact Or.inl (Or.inr ⟨b, hb, Or.inl h⟩)
      · exact Or.inl (Or.inr ⟨b, hb, Or.inr h⟩)
      · exact Or.inr (Or.inl h)
      · exact Or.inr (Or.inr h)
  · intro d
    rw [getNonWorkDaysCronDays, mem_sortNats, List.mem_filter]
    simp

lemma oooRuleMatches_iff (rule : OOORule) (day : String) (currentTime : Nat) :
    oooRuleMatches rule day currentTime = true ↔
      ((∃ d, rule.day = some d ∧ d ≠ "" ∧ d = day) ∨
       (∃ t dur, rule.time = some t ∧ rule.duration = some dur ∧
         t ≠ "" ∧ dur ≠ 0 ∧
         parseTime t ≤ currentTime ∧ currentTime < parseTime t + dur) ∨
       (∃ hr, rule.hour = some hr ∧ hr.start ≠ "" ∧ hr.stop ≠ "" ∧
         parseTime hr.start ≤ currentTime ∧ currentTime < parseTime hr.stop)) := by
  obtain ⟨d, tm, dur, hr, ds, msg⟩ := rule
  cases d <;> cases tm <;> cases dur <;> cases hr <;>
    (simp [oooRuleMatches, Bool.or_eq_true, Bool.and_eq_true, Bool.not_eq_true',
       decide_eq_true_eq, decide_eq_false_iff_not, and_assoc]
     try tauto)

/-- C9: isOutOfOffice holds exactly when some rule matches through its
singular day field, its time plus duration window, or its hour range; a
rule written only with a plural days array, as in one shipped configuration
revision, matches no day and no time and is silently ignored. -/
theorem ooo_matching_c9 :
    (∀ (c : Config) (day : String) (currentTime : Nat),
      isOutOfOffice c day currentTime = true ↔
        ∃ rule ∈ c.outOfOffice,
          ((∃ d, rule.day = some d ∧ d ≠ "" ∧ d = day) ∨
           (∃ t dur, rule.time = some t ∧ rule.duration = some dur ∧
             t ≠ "" ∧ dur ≠ 0 ∧
             parseTime t ≤ currentTime ∧ currentTime < parseTime t + dur) ∨
           (∃ hr, rule.hour = some hr ∧ hr.start ≠ "" ∧ hr.stop ≠ "" ∧
             parseTime hr.start ≤ currentTime ∧ currentTime < parseTime hr.stop))) ∧
    (∀ (dayList : List String) (msg : Option String) (day : String)
        (currentTime : Nat),
      oooRuleMatches ⟨none, none, none, none, some dayList, msg⟩
        day currentTime = false) ∧
    (∀ (day : String) (currentTime : Nat),
      isOutOfOffice configWithDaysRule day currentTime = false) := by
  refine ⟨?_, ?_, ?_⟩
  · intro c day currentTime
    rw [isOutOfOffice, List.any_eq_true]
    constructor
    · rintro ⟨rule, hr, hm⟩
      exact ⟨rule, hr, (oooRuleMatches_iff rule day currentTime).mp hm⟩
    · rintro ⟨rule, hr, hm⟩
      exact ⟨rule, hr, (oooRuleMatches_iff rule day currentTime).mpr hm⟩
  · intro dayList msg day currentTime
    rfl
  · intro day currentTime
    rfl

/-- Witness for C5 at concrete weekdays: Saturday satisfies the fixed
check, and on the default work week Monday agrees with the complement
convention. -/
theorem isWeekend_fixed_c5_witness :
    (isWeekend Weekday.saturday = true ↔
      (Weekday.saturday = .saturday ∨ Weekday.saturday = .sunday)) ∧
    isWeekend Weekday.monday = !(defaultConfig.workDays.contains Weekday.monday.name) :=
  ⟨isWeekend_fixed_c5.1 Weekday.saturday, isWeekend_fixed_c5.2 Weekday.monday⟩

/-- Witness for C6 at the shipped configuration: the non-work midnight
trigger is in the derived set, and day 6 lies in the complement mask. -/
theorem deriveTriggers_amended_c6_witness :
    Trigger.mk 0 0 [0, 6] ReasonTag.nonWorkMidnight ∈ deriveTriggers defaultConfig ∧
    6 ∉ defaultConfig.workDays.filterMap dayMap :=
  ⟨((deriveTriggers_amended_c6 defaultConfig).1
      ⟨0, 0, [0, 6], .nonWorkMidnight⟩).mpr (by decide),
   (((deriveTriggers_amended_c6 defaultConfig).2 6).mp (by decide)).2⟩

/-- Witness for C8 at two concrete workspaces: no remote event and one log
per workspace. -/
theorem debug_dispatch_c8_witness :
    (updateSlackStatus true [("A", ⟨.err, .ok⟩), ("B", ⟨.ok, .ok⟩)]).filter
        isRemoteCall = [] ∧
    updateSlackStatus true [("A", ⟨.err, .ok⟩), ("B", ⟨.ok, .ok⟩)] =
      List.map (fun ws => DispatchEvent.logged ws.1)
        [("A", WorkspaceEnv.mk .err .ok), ("B", WorkspaceEnv.mk .ok .ok)] :=
  debug_dispatch_c8
    [("A", WorkspaceEnv.mk .err .ok), ("B", WorkspaceEnv.mk .ok .ok)]

/-- Witness for C9: the shipped plural-days rule matches neither a Saturday
morning nor anything else, and the resolver configuration carrying it is
never out of office. -/
theorem ooo_matching_c9_witness :
    isOutOfOffice configWithDaysRule "Saturday" 600 = false ∧
    oooRuleMatches ⟨none, none, none, none, some ["Saturday", "Sunday"], none⟩
      "Saturday" 600 = false :=
  ⟨ooo_matching_c9.2.2 "Saturday" 600,
   ooo_matching_c9.2.1 ["Saturday", "Sunday"] none "Saturday" 600⟩

end SlackStatus
